import Mathlib

/-!
Verification of the StormForge traffic orchestrator against its
natural-language specification.

The Python sources under `app/` are shallowly embedded as executable Lean
definitions: pure helpers become Lean functions, the relational store
becomes an explicit list of rows passed through each operation, time
(`datetime.utcnow()`) becomes an explicit natural-number parameter, and
fallible operations return `Except` / `Option` / a result flag, mirroring
the exception or return-value behaviour of the source.
-/

namespace StormForge

/-! ## Schemas (`app/api/schemas.py`) -/

/-- `TrafficType` enum: `tcp-syn`, `udp`, `icmp`. -/
inductive TrafficType where
  | tcpSyn
  | udp
  | icmp
deriving DecidableEq, Repr

/-- `JobStatus` enum from `app/api/schemas.py`. -/
inductive JobStatus where
  | queued
  | starting
  | running
  | stopping
  | completed
  | failed
  | cancelled
deriving DecidableEq, Repr

/-- Terminal statuses: `completed`, `failed`, `cancelled` (the list used by
`update_job_status`, `cleanup_old_jobs` and the FSM description). -/
def terminalStatuses : List JobStatus :=
  [JobStatus.completed, JobStatus.failed, JobStatus.cancelled]

/-- Active statuses targeted by `emergency_stop_all` and
`_get_active_job_count`: `queued`, `starting`, `running`. -/
def activeStatuses : List JobStatus :=
  [JobStatus.queued, JobStatus.starting, JobStatus.running]

/-- `JobCreateRequest` (`app/api/schemas.py`), restricted to the fields the
job service and command builder read.  Optional Python fields become
`Option`; `src_port` defaults to `0` in the schema and is additionally
guarded by truthiness in the code, so it is kept as `Option Nat` with
`none`/`some 0` both denoting "unset". -/
structure JobCreateRequest where
  name : String := "job"
  targets : List String := []
  traffic_type : TrafficType := TrafficType.udp
  dst_port : Option Nat := none
  src_port : Option Nat := some 0
  pps : Nat := 10
  packet_size : Nat := 64
  ttl : Nat := 64
  iface : Option String := none
  spoof_source : Bool := false
  source_ip : Option String := none
  payload : Option String := none
  hping_options : List String := []
  duration : Nat := 60
  dry_run : Bool := false
deriving DecidableEq, Repr

/-! ## Validation helpers (`app/utils/validation.py`) -/

/-- Kernel-friendly emptiness test for strings. -/
def strEmpty (s : String) : Bool :=
  s.toList.isEmpty

/-- Kernel-friendly `str.startswith`. -/
def strStartsWith (s p : String) : Bool :=
  p.toList.isPrefixOf s.toList

/-- Split a character list on a separator character (the semantics of
`str.split(sep)` for a one-character separator: `n` separators produce
`n+1` groups, possibly empty). -/
def splitOnChar (sep : Char) : List Char → List (List Char)
  | [] => [[]]
  | d :: rest =>
      match splitOnChar sep rest with
      | [] => [[]]
      | grp :: grps => if d = sep then [] :: grp :: grps else (d :: grp) :: grps

/-- `validate_port`: `1 <= port <= 65535`. -/
def validate_port (port : Nat) : Bool :=
  1 ≤ port && port ≤ 65535

/-- Character class of the interface-name pattern `^[a-zA-Z0-9\-_\.]+$`. -/
def ifaceChar (c : Char) : Bool :=
  ('a' ≤ c && c ≤ 'z') || ('A' ≤ c && c ≤ 'Z') || ('0' ≤ c && c ≤ '9') ||
    c = '-' || c = '_' || c = '.'

/-- `validate_interface_name`: nonempty, every character in the pattern
class, and length at most 15. -/
def validate_interface_name (iface : String) : Bool :=
  !strEmpty iface && iface.toList.all ifaceChar && iface.length ≤ 15

/-- The characters deleted by `sanitize_payload`. -/
def dangerousChars : List Char :=
  ['&', ';', '|', '`', '$', '(', ')', '{', '}', '[', ']', '<', '>']

/-- One step of the sanitization loop: `sanitized.replace(char, '')`,
i.e. removal of every occurrence of `c`. -/
def removeChar (s : List Char) (c : Char) : List Char :=
  s.filter (fun d => d ≠ c)

/-- `sanitize_payload`: empty input maps to `""`; otherwise each dangerous
character is removed in turn and the result is truncated to its first 1024
characters (`sanitized[:1024]`). -/
def sanitize_payload (payload : String) : String :=
  if strEmpty payload then ""
  else String.mk ((dangerousChars.foldl removeChar payload.toList).take 1024)

/-! ## Python `int(s, 16)` acceptance

`HpingCommandBuilder._is_hex_string` decides hex-ness by attempting
`int(s, 16)`.  The parser accepted by CPython for base 16 (on ASCII
input, the only alphabet reachable here) is: optional surrounding
whitespace, an optional sign, an optional `0x`/`0X` prefix (optionally
followed by one underscore), then hexadecimal digits with single
underscores allowed between digits. -/

/-- ASCII whitespace stripped by Python's `int()` and `str.strip()`. -/
def pyIsSpace (c : Char) : Bool :=
  c = ' ' || c = '\t' || c = '\n' || c = '\x0d' || c = '\x0b' || c = '\x0c'

/-- Hexadecimal digit. -/
def pyIsHexDigit (c : Char) : Bool :=
  ('0' ≤ c && c ≤ '9') || ('a' ≤ c && c ≤ 'f') || ('A' ≤ c && c ≤ 'F')

/-- Digit run continuation: single underscores may separate digits, but an
underscore may not end the run or be doubled. -/
def hexTail : List Char → Bool
  | [] => true
  | ['_'] => false
  | '_' :: c :: rest => pyIsHexDigit c && hexTail rest
  | c :: rest => pyIsHexDigit c && hexTail rest

/-- A nonempty digit run starting with a digit. -/
def hexRun : List Char → Bool
  | [] => false
  | c :: rest => pyIsHexDigit c && hexTail rest

/-- Strip leading and trailing Python whitespace from a character list. -/
def pyStripChars (cs : List Char) : List Char :=
  ((cs.dropWhile pyIsSpace).reverse.dropWhile pyIsSpace).reverse

/-- Python `str.strip()` on ASCII strings. -/
def pyStrip (s : String) : String :=
  String.mk (pyStripChars s.toList)

/-- Whether `int(s, 16)` succeeds on ASCII input `s`. -/
def pyIntParsable16 (s : String) : Bool :=
  let cs := pyStripChars s.toList
  let cs := match cs with
    | '+' :: rest => rest
    | '-' :: rest => rest
    | rest => rest
  match cs with
  | '0' :: x :: rest =>
      if x = 'x' || x = 'X' then
        match rest with
        | '_' :: rest' => hexRun rest'
        | rest' => hexRun rest'
      else hexRun cs
  | _ => hexRun cs

/-- `HpingCommandBuilder._is_hex_string`: `int(s, 16)` must succeed and the
length must be even. -/
def is_hex_string (s : String) : Bool :=
  pyIntParsable16 s && s.length % 2 = 0

/-! ## Command builder (`app/utils/hping.py`) -/

/-- `HpingCommandBuilder.ALLOWED_OPTIONS`. -/
def allowedOptions : List String :=
  ["--fast", "--faster", "--flood",
   "-V", "--verbose", "-q", "--quiet",
   "--baseport", "--destport", "--keep",
   "--rand-dest", "--rand-source"]

/-- `MAX_COUNT` -/
def maxCount : Nat := 1000000

/-- `MAX_INTERVAL` (microseconds) -/
def maxInterval : Nat := 1000000

/-- `MIN_INTERVAL` (microseconds, 1 ms minimum) -/
def minInterval : Nat := 1000

/-- Membership test of `_validate_hping_options`: the (stripped) option is
kept when it equals an allowed entry or starts with `allowed + '='`. -/
def optionAllowed (o : String) : Bool :=
  allowedOptions.any (fun a => o = a || strStartsWith o (a ++ "="))

/-- `HpingCommandBuilder._validate_hping_options`: each option is
stripped; empty results are skipped; allowed options are appended to the
output, all others dropped (with a log line, not an error). -/
def validate_hping_options (options : List String) : List String :=
  options.foldl
    (fun acc o₀ =>
      let o := pyStrip o₀
      if o = "" then acc
      else if optionAllowed o then acc ++ [o]
      else acc)
    []

/-- Traffic-type arguments of `build_command`. -/
def trafficArgs : TrafficType → List String
  | TrafficType.udp => ["--udp"]
  | TrafficType.icmp => ["--icmp"]
  | TrafficType.tcpSyn => ["-S"]

/-- `-p` destination-port block (`if job_spec.dst_port and
validate_port(job_spec.dst_port)`; Python truthiness makes `0` falsy,
which `validate_port` also rejects). -/
def dstPortArgs (dst_port : Option Nat) : List String :=
  match dst_port with
  | some p => if p ≠ 0 && validate_port p then ["-p", toString p] else []
  | none => []

/-- `--baseport` source-port block (`if job_spec.src_port and
job_spec.src_port > 0 and validate_port(...)`). -/
def srcPortArgs (src_port : Option Nat) : List String :=
  match src_port with
  | some p => if p ≠ 0 && 0 < p && validate_port p then ["--baseport", toString p] else []
  | none => []

/-- `-d` packet-size block. -/
def dataArgs (packet_size : Nat) : List String :=
  if 0 < packet_size then ["-d", toString (min packet_size 65507)] else []

/-- `-t` TTL block (`if job_spec.ttl and 1 <= job_spec.ttl <= 255`). -/
def ttlArgs (ttl : Nat) : List String :=
  if ttl ≠ 0 && 1 ≤ ttl && ttl ≤ 255 then ["-t", toString ttl] else []

/-- `-I` interface block. -/
def ifaceArgs (iface : Option String) : List String :=
  match iface with
  | some i => if !strEmpty i && validate_interface_name i then ["-I", i] else []
  | none => []

/-- `-a` spoofed-source block (`if job_spec.spoof_source and
job_spec.source_ip`). -/
def spoofArgs (spoof_source : Bool) (source_ip : Option String) : List String :=
  match source_ip with
  | some s => if spoof_source && !strEmpty s then ["-a", s] else []
  | none => []

/-- The clamped inter-packet interval in microseconds:
`max(MIN_INTERVAL, min(MAX_INTERVAL, int(1_000_000 / pps)))`.  For
`1 ≤ pps ≤ 10000` (the schema range) the float expression
`int(1_000_000 / pps)` equals the truncated quotient `⌊1000000 / pps⌋`:
the exact quotient is at least `1/pps ≥ 1/10000` away from any other
integer, far beyond the rounding error of the double division. -/
def intervalFor (pps : Nat) : Nat :=
  max minInterval (min maxInterval (1000000 / pps))

/-- `-i u<interval>` rate block. -/
def rateArgs (pps : Nat) : List String :=
  if 0 < pps then ["-i", "u" ++ toString (intervalFor pps)] else []

/-- `-c <count>` block: `min(MAX_COUNT, pps * duration)` when a duration
is set. -/
def countArgs (pps duration : Nat) : List String :=
  if 0 < duration then ["-c", toString (min maxCount (pps * duration))] else []

/-- `-E`/`-e` payload block: the payload is sanitized; if the result is
nonempty it is emitted with `-E` when `_is_hex_string` accepts it and with
`-e` otherwise. -/
def payloadArgs (payload : Option String) : List String :=
  match payload with
  | some pl =>
      if strEmpty pl then []
      else
        let s := sanitize_payload pl
        if strEmpty s then []
        else if is_hex_string s then ["-E", s]
        else ["-e", s]
  | none => []

/-- Extra-options block (`if job_spec.hping_options:` — an empty list is
falsy and contributes nothing, exactly like filtering it). -/
def optionArgs (options : List String) : List String :=
  validate_hping_options options

/-- All argument blocks of `build_command` before the verbosity fix-up and
the target, in source order. -/
def buildBase (spec : JobCreateRequest) : List String :=
  ["hping3"]
    ++ trafficArgs spec.traffic_type
    ++ dstPortArgs spec.dst_port
    ++ srcPortArgs spec.src_port
    ++ dataArgs spec.packet_size
    ++ ttlArgs spec.ttl
    ++ ifaceArgs spec.iface
    ++ spoofArgs spec.spoof_source spec.source_ip
    ++ rateArgs spec.pps
    ++ countArgs spec.pps spec.duration
    ++ payloadArgs spec.payload
    ++ optionArgs spec.hping_options

/-- `HpingCommandBuilder.build_command`: the argument blocks, a `-V`
appended when neither `-V` nor `--verbose` is already present, then the
target. -/
def build_command (spec : JobCreateRequest) (target : String) : List String :=
  let args := buildBase spec
  (if args.contains "-V" || args.contains "--verbose" then args
   else args ++ ["-V"]) ++ [target]

/-! ## Settings (`app/config.py`) -/

/-- Build an IPv4 address from dotted-quad components. -/
def ipv4 (a b c d : Nat) : Nat :=
  ((a * 256 + b) * 256 + c) * 256 + d

/-- A CIDR block: base address and prefix length. -/
structure Cidr where
  base : Nat
  prefixLen : Nat
deriving DecidableEq, Repr

/-- Membership of an address in a CIDR block: agreement on the top
`prefixLen` bits. -/
def cidrContains (c : Cidr) (ip : Nat) : Bool :=
  ip / 2 ^ (32 - c.prefixLen) = c.base / 2 ^ (32 - c.prefixLen)

/-- `IPSet` membership: containment in any block. -/
def ipInSet (ip : Nat) (s : List Cidr) : Bool :=
  s.any (fun c => cidrContains c ip)

/-- `ipaddress.is_multicast` for IPv4: membership in `224.0.0.0/4`. -/
def isMulticast (ip : Nat) : Bool :=
  cidrContains { base := ipv4 224 0 0 0, prefixLen := 4 } ip

/-- Decimal octet parser for dotted-quad components: nonempty, at most
three digits, no leading zero (matching `ipaddress`'s strict parsing),
value at most 255. -/
def parseOctet (s : List Char) : Option Nat :=
  if s.isEmpty || s.length > 3 then none
  else if !s.all (fun c => '0' ≤ c && c ≤ '9') then none
  else if s.length > 1 && s.head? = some '0' then none
  else
    let v := s.foldl (fun acc c => acc * 10 + (c.toNat - '0'.toNat)) 0
    if v ≤ 255 then some v else none

/-- Parse a dotted-quad IPv4 address. -/
def parseIPv4Chars (cs : List Char) : Option Nat :=
  match (splitOnChar '.' cs).map parseOctet with
  | [some a, some b, some c, some d] => some (ipv4 a b c d)
  | _ => none

/-- Parse a dotted-quad IPv4 address from a string (the bare-IP parse
`ipaddress.ip_address(target)`; in `validate_target` a successful result
is never usable, since the following netaddr set membership raises on
the stdlib object — see `validate_target`). -/
def parseIPv4 (s : String) : Option Nat :=
  parseIPv4Chars s.toList

/-- Decimal prefix-length parser: nonempty digit string, value ≤ 32. -/
def parsePrefixLen (cs : List Char) : Option Nat :=
  if cs.isEmpty || !cs.all (fun c => '0' ≤ c && c ≤ '9') then none
  else
    let v := cs.foldl (fun acc c => acc * 10 + (c.toNat - '0'.toNat)) 0
    if v ≤ 32 then some v else none

/-- Parse `addr/prefix` as an `IPNetwork`. -/
def parseNetwork (s : String) : Option Cidr :=
  match splitOnChar '/' s.toList with
  | [addr, pl] =>
      match parseIPv4Chars addr, parsePrefixLen pl with
      | some ip, some p => some { base := ip, prefixLen := p }
      | _, _ => none
  | _ => none

/-- `netaddr`'s `network.network`: the masked base address. -/
def networkAddress (c : Cidr) : Nat :=
  c.base / 2 ^ (32 - c.prefixLen) * 2 ^ (32 - c.prefixLen)

/-- The state of a `NetworkValidator`: allowlist, blocklist, and the
allowed broadcast/multicast ranges. -/
structure NetworkValidator where
  allowed_ranges : List Cidr
  blocked_ranges : List Cidr
  allowed_broadcast_ranges : List Cidr
deriving Repr

/-- `Settings.default_blocked_ranges`: loopback, link-local, multicast,
reserved. -/
def defaultBlockedRanges : List Cidr :=
  [{ base := ipv4 127 0 0 0, prefixLen := 8 },
   { base := ipv4 169 254 0 0, prefixLen := 16 },
   { base := ipv4 224 0 0 0, prefixLen := 4 },
   { base := ipv4 240 0 0 0, prefixLen := 4 }]

/-- The validator as initialised from default settings: empty allowlist,
default blocked ranges, and `224.0.0.0/8` as the (IPv4) allowed
broadcast range. -/
def defaultValidator : NetworkValidator :=
  { allowed_ranges := []
    blocked_ranges := defaultBlockedRanges
    allowed_broadcast_ranges := [{ base := ipv4 224 0 0 0, prefixLen := 8 }] }

/-- `NetworkValidator.validate_target`.

For a target containing `'/'` the source builds a netaddr `IPNetwork`;
its masked network address (a netaddr `IPAddress`) is then checked
against the blocked ranges, against the allowed-broadcast ranges when
the network spans more than one address or the address is multicast,
and against the allowlist when one is configured — all as written.

For a bare-IP target the source parses it with the *stdlib*
`ipaddress.ip_address` and then evaluates `ip_to_check in
self.blocked_ranges`, membership of that stdlib object in a *netaddr*
`IPSet`: netaddr's coercion rejects stdlib address objects with
`TypeError`, the function's blanket `except Exception` catches it, and
the target is reported as `"Invalid target format: ..."` — so every
bare-IP target (parseable or not) is rejected through the except path
and the set checks only ever run for CIDR targets.  The parenthesised
`str(e)` suffix of the source's format-error message is elided here. -/
def validate_target (v : NetworkValidator) (target : String) : Bool × String :=
  if target.toList.contains '/' then
    match parseNetwork target with
    | none => (false, "Invalid target format: " ++ target)
    | some net =>
        let ip := networkAddress net
        let isBroadcast := decide (net.prefixLen < 32)
        if ipInSet ip v.blocked_ranges then
          (false, "Target " ++ target ++ " is in blocked range")
        else if (isBroadcast || isMulticast ip) && !ipInSet ip v.allowed_broadcast_ranges then
          (false, "Broadcast/multicast target " ++ target ++ " not in allowed ranges")
        else if !v.allowed_ranges.isEmpty && !ipInSet ip v.allowed_ranges then
          (false, "Target " ++ target ++ " not in allowed ranges")
        else
          (true, "")
  else
    (false, "Invalid target format: " ++ target)

/-- The `Job` row, restricted to the columns the verified operations read
or write.  Timestamps are abstract instants (`Nat`); `none` is SQL
`NULL`. -/
structure Job where
  id : String
  user_id : Option String := none
  api_key_id : Option String := none
  status : JobStatus := JobStatus.queued
  pid : Option Nat := none
  error_message : Option String := none
  stdout_log : Option String := none
  stderr_log : Option String := none
  packets_sent : String := "0"
  bytes_sent : String := "0"
  created_at : Nat := 0
  queued_at : Option Nat := none
  started_at : Option Nat := none
  completed_at : Option Nat := none
  pps : Nat := 10
  duration : Nat := 60
deriving DecidableEq, Repr

/-- `JobService.get_job`: the row with the given id, if any. -/
def get_job (jobs : List Job) (job_id : String) : Option Job :=
  jobs.find? (fun j => j.id = job_id)

/-- Rewrite the row with the given id through `f`, keeping order. -/
def updateRow (jobs : List Job) (job_id : String) (f : Job → Job) : List Job :=
  jobs.map (fun j => if j.id = job_id then f j else j)

/-- The filter of `list_jobs`: a user-id condition when `user_id` is
truthy (present and nonempty) and a status condition when
`status_filter` is truthy (present and nonempty). -/
def listFilter (user_id : Option String) (status_filter : Option (List JobStatus))
    (j : Job) : Bool :=
  (match user_id with
   | some u => if strEmpty u then true else j.user_id = some u
   | none => true) &&
  (match status_filter with
   | some l => if l.isEmpty then true else l.contains j.status
   | none => true)

/-- Stable insertion into a list sorted by `created_at` descending. -/
def insertByCreatedDesc (j : Job) : List Job → List Job
  | [] => [j]
  | k :: rest =>
      if j.created_at > k.created_at then j :: k :: rest
      else k :: insertByCreatedDesc j rest

/-- `ORDER BY created_at DESC` (stable; ties keep store order, which
matches any order the database may choose once `created_at` values are
distinct). -/
def sortByCreatedDesc (jobs : List Job) : List Job :=
  jobs.foldl (fun acc j => insertByCreatedDesc j acc) []

/-- `JobService.list_jobs`: filter, count the filtered rows, order by
`created_at` descending, then apply `OFFSET`/`LIMIT` (the service
defaults are `limit = 50`, `offset = 0`).  Returns the page and the
total count. -/
def list_jobs (jobs : List Job) (user_id : Option String)
    (status_filter : Option (List JobStatus)) (limit offset : Nat) :
    List Job × Nat :=
  let filtered := jobs.filter (listFilter user_id status_filter)
  (((sortByCreatedDesc filtered).drop offset).take limit, filtered.length)

/-- The optional field arguments of `update_job_status`; a `none` leaves
the column untouched (`if x is not None`). -/
structure UpdateArgs where
  pid : Option Nat := none
  error_message : Option String := none
  stdout_log : Option String := none
  stderr_log : Option String := none
  packets_sent : Option Nat := none
  bytes_sent : Option Nat := none
deriving Repr

/-- Field and timestamp assignment of `update_job_status` on the loaded
row: set `status`, copy each supplied optional field, then set
`started_at` on a transition to `running` when it is still unset, or
`completed_at` on any update to a terminal status. -/
def applyStatusUpdate (now : Nat) (status : JobStatus) (a : UpdateArgs) (j : Job) : Job :=
  let j := { j with
    status := status
    pid := match a.pid with | some p => some p | none => j.pid
    error_message := match a.error_message with | some m => some m | none => j.error_message
    stdout_log := match a.stdout_log with | some s => some s | none => j.stdout_log
    stderr_log := match a.stderr_log with | some s => some s | none => j.stderr_log
    packets_sent := match a.packets_sent with | some n => toString n | none => j.packets_sent
    bytes_sent := match a.bytes_sent with | some n => toString n | none => j.bytes_sent }
  if status = JobStatus.running ∧ j.started_at = none then
    { j with started_at := some now }
  else if terminalStatuses.contains status then
    { j with completed_at := some now }
  else j

/-- `JobService.update_job_status`: load the row (`None` when absent),
apply the update, persist, and return the refreshed row. -/
def update_job_status (jobs : List Job) (now : Nat) (job_id : String)
    (status : JobStatus) (a : UpdateArgs) : List Job × Option Job :=
  match get_job jobs job_id with
  | none => (jobs, none)
  | some _ =>
      let jobs' := updateRow jobs job_id (applyStatusUpdate now status a)
      (jobs', get_job jobs' job_id)

/-- `JobService.stop_job` (persistence part): a missing job fails; a
`queued`/`starting` job moves to `cancelled`; a `running` job moves to
`stopping`, or to `cancelled` under `force`; any other status returns
failure with no change.  On success the completion timestamp is
assigned and the change persisted (the audit write is modelled in
`Db`-level wrappers). -/
def stop_job (jobs : List Job) (now : Nat) (job_id : String) (force : Bool) :
    List Job × Bool :=
  match get_job jobs job_id with
  | none => (jobs, false)
  | some job =>
      let finish (st : JobStatus) : List Job × Bool :=
        (updateRow jobs job_id (fun j => { j with status := st, completed_at := some now }), true)
      if job.status = JobStatus.queued ∨ job.status = JobStatus.starting then
        finish JobStatus.cancelled
      else if job.status = JobStatus.running then
        finish (if force then JobStatus.cancelled else JobStatus.stopping)
      else
        (jobs, false)

/-- The `WHERE` clause of `cleanup_old_jobs`: `completed_at < cutoff`
(a `NULL` timestamp never compares true) and a terminal status. -/
def cleanupMatches (cutoff : Nat) (j : Job) : Bool :=
  (match j.completed_at with
   | some t => decide (t < cutoff)
   | none => false) &&
  terminalStatuses.contains j.status

/-- `JobService.cleanup_old_jobs` with `cutoff = now - timedelta(days)`
precomputed: one `UPDATE` clearing `stdout_log`/`stderr_log` of every
matching row; the returned count is the statement's `rowcount`, the
number of rows matched by the `WHERE` clause in this execution. -/
def cleanup_old_jobs (jobs : List Job) (cutoff : Nat) : List Job × Nat :=
  (jobs.map (fun j =>
      if cleanupMatches cutoff j then { j with stdout_log := none, stderr_log := none } else j),
   (jobs.filter (cleanupMatches cutoff)).length)

/-- `JobManager.emergency_stop_all` (persistence part): list the jobs
still in `{queued, running, starting}` through `list_jobs` with its
default page (`limit = 50`, `offset = 0`), then mark each listed job
`cancelled` with error message "Emergency stop activated". -/
def emergency_stop_all (jobs : List Job) (now : Nat) : List Job :=
  let page := (list_jobs jobs none
    (some [JobStatus.queued, JobStatus.running, JobStatus.starting]) 50 0).1
  page.foldl
    (fun acc j =>
      (update_job_status acc now j.id JobStatus.cancelled
        { error_message := some "Emergency stop activated" }).1)
    jobs

/-! ## Test fixtures -/

/-- 51 queued jobs with distinct creation instants (`j0` the oldest). -/
def manyActiveJobs : List Job :=
  (List.range 51).map (fun i =>
    { id := "j" ++ toString i, created_at := i, status := JobStatus.queued })

/-- A running job with its start timestamp already assigned. -/
def runningJob : Job :=
  { id := "r", status := JobStatus.running, started_at := some 5 }

/-! Definitions written from the specification's wording, for comparison
with the embedded code (refinement checks). -/

/-- Modelled from the spec's wording "a valid even-length hexadecimal
string": a nonempty run of hexadecimal digits of even length. -/
def hexDigitsEven (s : String) : Bool :=
  !s.toList.isEmpty && s.toList.all pyIsHexDigit && s.length % 2 = 0

/-- Modelled from the spec's wording for option filtering: "keeps exactly
those options that match an entry of the allow-list either exactly or as
a flag=value prefix". -/
def keptOptionsClaim (opts : List String) : List String :=
  opts.filter optionAllowed

/-- Round-to-nearest division (the spec's `round(1_000_000 / pps)`;
half-way ties cannot occur at the inputs where it is applied below, so
the tie-breaking convention is irrelevant). -/
def roundNearest (a b : Nat) : Nat :=
  (2 * a + b) / (2 * b)

/-- A job spec carrying a payload that `int(s, 16)` accepts (underscore
between hex digits, even length) but that is not a hex-digit string. -/
def payloadCase : JobCreateRequest :=
  { targets := ["10.0.0.1"], payload := some "de_a", duration := 0 }

/-- A job spec with the plain ASCII payload of the spec's example. -/
def helloCase : JobCreateRequest :=
  { targets := ["10.0.0.1"], payload := some "hello", duration := 0 }

/-- A job spec whose pps makes `1_000_000 / pps` round up: `round` gives
166667 while truncation gives 166666. -/
def lowPpsCase : JobCreateRequest :=
  { targets := ["10.0.0.1"], pps := 6, duration := 0 }

/-- The spec's worked example: udp, pps=100, duration=10, packet size 64. -/
def ratedCase : JobCreateRequest :=
  { targets := ["10.0.0.1"], pps := 100, duration := 10 }

/-- A store with one completed job (for stop-semantics evaluation). -/
def stoppedDb : List Job :=
  [{ id := "c", status := JobStatus.completed }]

/-- A long-completed terminal job with captured logs. -/
def oldLoggedJob : Job :=
  { id := "a", status := JobStatus.completed, completed_at := some 0,
    stdout_log := some "x", stderr_log := some "y" }

end StormForge

namespace StormForge

set_option maxRecDepth 100000 in
/-- C1: the specification demands that `emergency_stop_all` cancel every
job in `{queued, running, starting}`, however many there are.  The code
fetches the active jobs through `list_jobs` with its default page size of
50, so with 51 active jobs only the 50 most recently created are
cancelled: the oldest (`j0`) is still `queued` afterwards. -/
theorem c1_emergency_stop_misses_page_overflow :
    manyActiveJobs.all (fun j => activeStatuses.contains j.status) = true ∧
    manyActiveJobs.length = 51 ∧
    ((emergency_stop_all manyActiveJobs 100).filter
        (fun j => j.status ≠ JobStatus.cancelled)).map (fun j => j.id) = ["j0"] ∧
    ((emergency_stop_all manyActiveJobs 100).filter
        (fun j => j.status = JobStatus.cancelled)).length = 50 := by
  decide

/-! Helper lemmas about the command builder. -/

/-- The sequential `replace(char, '')` loop of `sanitize_payload` equals a
single filter deleting every dangerous character. -/
theorem removeChars_eq_filter (ds cs : List Char) :
    ds.foldl removeChar cs = cs.filter (fun c => !ds.contains c) := by
  induction ds generalizing cs with
  | nil => simp
  | cons d ds ih =>
      rw [List.foldl_cons, ih, removeChar, List.filter_filter]
      refine List.filter_congr ?_
      intro c _
      by_cases hcd : c = d <;> by_cases hds : ds.contains c <;>
        simp [hcd, hds]

/-- The option-filtering fold, for an arbitrary accumulator. -/
theorem hping_options_foldl (opts : List String) (acc : List String) :
    opts.foldl
      (fun acc o₀ =>
        let o := pyStrip o₀
        if o = "" then acc
        else if optionAllowed o then acc ++ [o]
        else acc)
      acc
      = acc ++ (opts.map pyStrip).filter (fun o => !(o = "") && optionAllowed o) := by
  induction opts generalizing acc with
  | nil => simp
  | cons o opts ih =>
      simp only [List.foldl_cons, List.map_cons, List.filter_cons]
      by_cases h : pyStrip o = ""
      · simp [h, ih]
      · by_cases h2 : optionAllowed (pyStrip o)
        · simp [h, h2, ih]
        · simp [h, h2, ih]

/-- `build_command` is the argument blocks followed by a tail holding at
most the verbosity flag and the target. -/
theorem build_command_eq (spec : JobCreateRequest) (t : String) :
    build_command spec t = buildBase spec ++
      (if (buildBase spec).contains "-V" || (buildBase spec).contains "--verbose"
       then [t] else ["-V", t]) := by
  cases hc : (buildBase spec).contains "-V" || (buildBase spec).contains "--verbose" <;>
    simp only [build_command, hc] <;> simp [List.append_assoc]

/-- Regrouping of `buildBase` around the rate block. -/
theorem buildBase_rate_decomp (spec : JobCreateRequest) :
    buildBase spec =
      (["hping3"] ++ trafficArgs spec.traffic_type ++ dstPortArgs spec.dst_port
        ++ srcPortArgs spec.src_port ++ dataArgs spec.packet_size ++ ttlArgs spec.ttl
        ++ ifaceArgs spec.iface ++ spoofArgs spec.spoof_source spec.source_ip)
      ++ rateArgs spec.pps
      ++ (countArgs spec.pps spec.duration ++ payloadArgs spec.payload
          ++ optionArgs spec.hping_options) := by
  simp [buildBase, List.append_assoc]

/-- Regrouping of `buildBase` around the count block. -/
theorem buildBase_count_decomp (spec : JobCreateRequest) :
    buildBase spec =
      (["hping3"] ++ trafficArgs spec.traffic_type ++ dstPortArgs spec.dst_port
        ++ srcPortArgs spec.src_port ++ dataArgs spec.packet_size ++ ttlArgs spec.ttl
        ++ ifaceArgs spec.iface ++ spoofArgs spec.spoof_source spec.source_ip
        ++ rateArgs spec.pps)
      ++ countArgs spec.pps spec.duration
      ++ (payloadArgs spec.payload ++ optionArgs spec.hping_options) := by
  simp [buildBase, List.append_assoc]

/-- Regrouping of `buildBase` around the payload block. -/
theorem buildBase_payload_decomp (spec : JobCreateRequest) :
    buildBase spec =
      (["hping3"] ++ trafficArgs spec.traffic_type ++ dstPortArgs spec.dst_port
        ++ srcPortArgs spec.src_port ++ dataArgs spec.packet_size ++ ttlArgs spec.ttl
        ++ ifaceArgs spec.iface ++ spoofArgs spec.spoof_source spec.source_ip
        ++ rateArgs spec.pps ++ countArgs spec.pps spec.duration)
      ++ payloadArgs spec.payload
      ++ optionArgs spec.hping_options := by
  simp [buildBase, List.append_assoc]

/-- Any block of `buildBase` surfaces as an infix of the full command. -/
theorem build_command_block (spec : JobCreateRequest) (t : String)
    (pre block post : List String)
    (hsplit : buildBase spec = pre ++ block ++ post) :
    ∃ l₁ l₂, build_command spec t = l₁ ++ block ++ l₂ := by
  refine ⟨pre, post ++
    (if (buildBase spec).contains "-V" || (buildBase spec).contains "--verbose"
     then [t] else ["-V", t]), ?_⟩
  rw [build_command_eq, hsplit]
  simp [List.append_assoc]

/-- C2: the specification's invariant says `completed_at` is assigned
exactly once, on the first transition into a terminal state, and never on
a non-terminal transition.  The code violates both halves: `stop_job`
without `force` moves a `running` job to the non-terminal `stopping`
status yet assigns `completed_at`, and `update_job_status` reassigns
`completed_at` on every repeated terminal update (here from instant 10 to
instant 20). -/
theorem c2_completed_at_not_write_once :
    (get_job (stop_job [runningJob] 10 "r" false).1 "r" =
      some { runningJob with status := JobStatus.stopping, completed_at := some 10 }) ∧
    terminalStatuses.contains JobStatus.stopping = false ∧
    (get_job (update_job_status [runningJob] 10 "r" JobStatus.completed {}).1 "r"
        |>.map (fun j => j.completed_at)) = some (some 10) ∧
    (get_job (update_job_status
        (update_job_status [runningJob] 10 "r" JobStatus.completed {}).1
        20 "r" JobStatus.completed {}).1 "r"
        |>.map (fun j => j.completed_at)) = some (some 20) := by
  decide

/-- C4: under the default configuration, the multicast target
`224.0.0.1` lies inside the allowed-broadcast range `224.0.0.0/8`, so
per the specification it must be accepted; the code rejects it.  As a
bare IP the target is parsed with stdlib `ipaddress`, whose object the
netaddr `IPSet` membership then rejects with `TypeError`; the blanket
`except` turns every bare-IP target into an "Invalid target format"
rejection, so the allowed-broadcast exemption is unreachable for
`224.0.0.1`.  The CIDR route cannot accept it either: for
`224.0.0.1/32` the blocked-ranges check (default `224.0.0.0/4`) runs
before the allowed-broadcast exemption and rejects it. -/
theorem c4_multicast_allowed_range_rejected :
    isMulticast (ipv4 224 0 0 1) = true ∧
    ipInSet (ipv4 224 0 0 1) defaultValidator.allowed_broadcast_ranges = true ∧
    validate_target defaultValidator "224.0.0.1" =
      (false, "Invalid target format: 224.0.0.1") ∧
    validate_target defaultValidator "224.0.0.1/32" =
      (false, "Target 224.0.0.1/32 is in blocked range") := by
  decide

end StormForge

namespace StormForge

/-- C5: counterexample to the claim's hex test.  The claim says the
sanitized payload gets `-E` exactly when it is a valid even-length
hexadecimal string and `-e` otherwise.  The code instead attempts
`int(s, 16)`, which also accepts underscores between digits: for payload
`"de_a"` (sanitization leaves it unchanged; it is not a string of hex
digits) the claim requires `-e de_a`, but the built command carries
`-E de_a` and no `-e`. -/
theorem c5_payload_flag_counterexample :
    sanitize_payload "de_a" = "de_a" ∧
    hexDigitsEven "de_a" = false ∧
    build_command payloadCase "10.0.0.1" =
      ["hping3", "--udp", "-d", "64", "-t", "64", "-i", "u100000",
       "-E", "de_a", "-V", "10.0.0.1"] ∧
    (build_command payloadCase "10.0.0.1").contains "-e" = false := by
  decide

/-- C5 (amended): for every spec with a nonempty payload, sanitization
deletes every occurrence of the dangerous characters and truncates to
1024 characters; the command embeds the payload block, which emits
`-E <s>` when the sanitized string `s` is nonempty, accepted by Python's
`int(s, 16)` (hex digits, optionally with surrounding whitespace, a
sign, an `0x`/`0X` prefix, or underscores between digits) and of even
length, `-e <s>` when `s` is nonempty but fails that test, and nothing
when `s` is empty. -/
theorem c5_payload_flag_amended (spec : JobCreateRequest) (target p : String)
    (hp : spec.payload = some p) (hne : strEmpty p = false) :
    sanitize_payload p =
      String.mk ((p.toList.filter (fun c => !dangerousChars.contains c)).take 1024) ∧
    payloadArgs spec.payload =
      (if strEmpty (sanitize_payload p) then []
       else if pyIntParsable16 (sanitize_payload p) ∧ (sanitize_payload p).length % 2 = 0
       then ["-E", sanitize_payload p]
       else ["-e", sanitize_payload p]) ∧
    ∃ l₁ l₂, build_command spec target = l₁ ++ payloadArgs spec.payload ++ l₂ := by
  refine ⟨?_, ?_, ?_⟩
  · rw [sanitize_payload, if_neg (by simp [hne]), removeChars_eq_filter]
  · rw [hp]
    simp only [payloadArgs, hne, Bool.false_eq_true, if_false, is_hex_string]
    by_cases h0 : strEmpty (sanitize_payload p)
    · simp [h0]
    · by_cases hh : pyIntParsable16 (sanitize_payload p) ∧ (sanitize_payload p).length % 2 = 0
      · simp [h0, hh, Bool.and_eq_true, decide_eq_true_eq]
      · simp only [h0, Bool.false_eq_true, if_false, if_neg hh]
        rw [if_neg]
        simp only [Bool.and_eq_true, decide_eq_true_eq]
        exact hh
  · exact build_command_block spec target _ _ _ (buildBase_payload_decomp spec)

/-- C5 (witness): the amended theorem applied to the spec's own example
payload `"hello"`. -/
theorem c5_payload_flag_witness :
    sanitize_payload "hello" =
      String.mk ((("hello" : String).toList.filter (fun c => !dangerousChars.contains c)).take 1024) ∧
    payloadArgs helloCase.payload =
      (if strEmpty (sanitize_payload "hello") then []
       else if pyIntParsable16 (sanitize_payload "hello") ∧ (sanitize_payload "hello").length % 2 = 0
       then ["-E", sanitize_payload "hello"]
       else ["-e", sanitize_payload "hello"]) ∧
    ∃ l₁ l₂, build_command helloCase "10.0.0.1" = l₁ ++ payloadArgs helloCase.payload ++ l₂ :=
  c5_payload_flag_amended helloCase "10.0.0.1" "hello" rfl (by decide)

/-- C6: counterexample to `round` in the claim's interval formula.  For
pps = 6 the quotient 1000000/6 = 166666.66… is not a half-integer tie,
so every round-to-nearest convention (including Python's) yields 166667;
the code truncates (`int(...)`) and emits `-i u166666`, and the claimed
token `u166667` does not occur in the command. -/
theorem c6_rate_counterexample :
    roundNearest 1000000 6 = 166667 ∧
    build_command lowPpsCase "10.0.0.1" =
      ["hping3", "--udp", "-d", "64", "-t", "64", "-i", "u166666", "-V", "10.0.0.1"] ∧
    (build_command lowPpsCase "10.0.0.1").contains ("u" ++ toString (roundNearest 1000000 6)) = false := by
  decide

/-- C6 (amended): for every spec with pps in [1, 10000], the command
contains `-i u<interval>` with interval = clamp(⌊1000000 / pps⌋, 1000,
1000000) — truncating division, not rounding — and, when duration > 0,
`-c <count>` with count = min(1000000, pps·duration); an interval that
would fall below 1000 clamps to exactly 1000, and pps=100 computes
interval 10000 and (with duration 10) count 1000. -/
theorem c6_rate_amended (spec : JobCreateRequest) (target : String)
    (h1 : 1 ≤ spec.pps) (h2 : spec.pps ≤ 10000) :
    (∃ l₁ l₂, build_command spec target =
      l₁ ++ ["-i", "u" ++ toString (max minInterval (min maxInterval (1000000 / spec.pps)))] ++ l₂) ∧
    (0 < spec.duration → ∃ l₃ l₄, build_command spec target =
      l₃ ++ ["-c", toString (min maxCount (spec.pps * spec.duration))] ++ l₄) ∧
    (1000000 / spec.pps < 1000 → intervalFor spec.pps = minInterval) ∧
    intervalFor 100 = 10000 ∧
    min maxCount (100 * 10) = 1000 := by
  refine ⟨?_, ?_, ?_, by decide, by decide⟩
  · have hr : rateArgs spec.pps =
        ["-i", "u" ++ toString (max minInterval (min maxInterval (1000000 / spec.pps)))] := by
      rw [rateArgs, if_pos (by omega), intervalFor]
    exact build_command_block spec target _ _ _ (hr ▸ buildBase_rate_decomp spec)
  · intro hd
    have hcnt : countArgs spec.pps spec.duration =
        ["-c", toString (min maxCount (spec.pps * spec.duration))] := by
      rw [countArgs, if_pos hd]
    exact build_command_block spec target _ _ _ (hcnt ▸ buildBase_count_decomp spec)
  · intro hlt
    rw [intervalFor, minInterval] at *
    rw [min_eq_right (by rw [maxInterval]; omega)]
    omega

/-- C6 (witness): the amended theorem applied to the worked example
pps = 100, duration = 10. -/
theorem c6_rate_witness :
    (∃ l₁ l₂, build_command ratedCase "10.0.0.1" = l₁ ++ ["-i", "u10000"] ++ l₂) ∧
    (∃ l₃ l₄, build_command ratedCase "10.0.0.1" = l₃ ++ ["-c", "1000"] ++ l₄) := by
  have h := c6_rate_amended ratedCase "10.0.0.1" (by decide) (by decide)
  exact ⟨h.1, h.2.1 (by decide)⟩

/-- C7: counterexample to "keeps exactly those options that match an
entry of the allow-list exactly or as a flag=value prefix".  The option
`"--flood "` (trailing space) matches no allow-list entry in either way,
so under the claim it is dropped; the code strips whitespace first and
keeps it as `"--flood"`. -/
theorem c7_option_filter_counterexample :
    keptOptionsClaim ["--flood "] = [] ∧
    optionAllowed "--flood " = false ∧
    validate_hping_options ["--flood "] = ["--flood"] := by
  decide

/-- C7 (amended): option filtering first strips surrounding whitespace
from each caller-supplied option and drops empty results, then keeps
exactly those stripped options matching an allow-list entry exactly or
as a "flag=value" prefix, silently dropping all others (the function is
total — no synthesis failure); in particular every emitted option passes
the allow-list test, and `["--flood", "--evil-flag"]` keeps `--flood`
and drops `--evil-flag`. -/
theorem c7_option_filter_amended :
    (∀ opts, validate_hping_options opts =
      (opts.map pyStrip).filter (fun o => !(o = "") && optionAllowed o)) ∧
    validate_hping_options ["--flood", "--evil-flag"] = ["--flood"] ∧
    (∀ opts o, o ∈ validate_hping_options opts → optionAllowed o = true) := by
  have key : ∀ opts, validate_hping_options opts =
      (opts.map pyStrip).filter (fun o => !(o = "") && optionAllowed o) := by
    intro opts
    exact hping_options_foldl opts []
  refine ⟨key, by decide, ?_⟩
  intro opts o hmem
  rw [key] at hmem
  have := List.of_mem_filter hmem
  simp only [Bool.and_eq_true] at this
  exact this.2

/-- C7 (witness): the amended theorem applied to the concrete input
`["--flood "]` and the kept option `--flood`. -/
theorem c7_option_filter_witness :
    validate_hping_options ["--flood "] =
      ((["--flood "].map pyStrip).filter (fun o => !(o = "") && optionAllowed o)) ∧
    optionAllowed "--flood" = true :=
  ⟨c7_option_filter_amended.1 ["--flood "],
   c7_option_filter_amended.2.2 ["--flood", "--evil-flag"] "--flood" (by decide)⟩

end StormForge

namespace StormForge

/-- Looking up the updated id after an id-preserving row rewrite yields
the rewritten row. -/
theorem get_job_updateRow (jobs : List Job) (job_id : String) (f : Job → Job)
    (hf : ∀ j, (f j).id = j.id) :
    get_job (updateRow jobs job_id f) job_id = (get_job jobs job_id).map f := by
  induction jobs with
  | nil => rfl
  | cons j rest ih =>
      by_cases h : j.id = job_id
      · simp [get_job, updateRow, List.find?_cons, h, hf]
      · simp only [get_job, updateRow, List.map_cons] at ih ⊢
        rw [if_neg h, List.find?_cons, List.find?_cons, decide_eq_false h]
        exact ih

/-- C8: for every existing job, `stop_job` moves a `queued`/`starting`
job directly to `cancelled`; moves a `running` job to `stopping` without
`force` and to `cancelled` with `force`; and for any other status
returns failure and leaves the store (hence the job's status) completely
unchanged. -/
theorem c8_stop_semantics (jobs : List Job) (now : Nat) (job_id : String)
    (force : Bool) (job : Job) (hfind : get_job jobs job_id = some job) :
    ((job.status = JobStatus.queued ∨ job.status = JobStatus.starting) →
      (stop_job jobs now job_id force).2 = true ∧
      get_job (stop_job jobs now job_id force).1 job_id =
        some { job with status := JobStatus.cancelled, completed_at := some now }) ∧
    (job.status = JobStatus.running → force = false →
      (stop_job jobs now job_id force).2 = true ∧
      get_job (stop_job jobs now job_id force).1 job_id =
        some { job with status := JobStatus.stopping, completed_at := some now }) ∧
    (job.status = JobStatus.running → force = true →
      (stop_job jobs now job_id force).2 = true ∧
      get_job (stop_job jobs now job_id force).1 job_id =
        some { job with status := JobStatus.cancelled, completed_at := some now }) ∧
    (job.status ≠ JobStatus.queued → job.status ≠ JobStatus.starting →
      job.status ≠ JobStatus.running →
      stop_job jobs now job_id force = (jobs, false)) := by
  have hupd : ∀ st : JobStatus,
      get_job (updateRow jobs job_id
        (fun j => { j with status := st, completed_at := some now })) job_id =
        some { job with status := st, completed_at := some now } := by
    intro st
    rw [get_job_updateRow jobs job_id
        (fun j => { j with status := st, completed_at := some now })
        (fun j => rfl), hfind]
    rfl
  refine ⟨?_, ?_, ?_, ?_⟩
  · intro hqs
    simp only [stop_job, hfind]
    rw [if_pos hqs]
    exact ⟨rfl, hupd JobStatus.cancelled⟩
  · intro hrun hf
    subst hf
    have hnqs : ¬(job.status = JobStatus.queued ∨ job.status = JobStatus.starting) := by
      rw [hrun]; rintro (h | h) <;> exact JobStatus.noConfusion h
    simp only [stop_job, hfind]
    rw [if_neg hnqs, if_pos hrun]
    exact ⟨rfl, hupd JobStatus.stopping⟩
  · intro hrun hf
    subst hf
    have hnqs : ¬(job.status = JobStatus.queued ∨ job.status = JobStatus.starting) := by
      rw [hrun]; rintro (h | h) <;> exact JobStatus.noConfusion h
    simp only [stop_job, hfind]
    rw [if_neg hnqs, if_pos hrun]
    exact ⟨rfl, hupd JobStatus.cancelled⟩
  · intro hq hs hr
    have hnqs : ¬(job.status = JobStatus.queued ∨ job.status = JobStatus.starting) := by
      rintro (h | h)
      · exact hq h
      · exact hs h
    simp only [stop_job, hfind]
    rw [if_neg hnqs, if_neg hr]

/-- C8 (witness): stopping an already-`completed` job fails and leaves
the store unchanged. -/
theorem c8_stop_semantics_witness :
    stop_job stoppedDb 10 "c" false = (stoppedDb, false) :=
  (c8_stop_semantics stoppedDb 10 "c" false
      { id := "c", status := JobStatus.completed } (by decide)).2.2.2
    (by decide) (by decide) (by decide)

end StormForge

namespace StormForge

/-- Clearing the captured logs does not change which rows the cleanup
filter matches (the filter reads only `completed_at` and `status`). -/
theorem cleanupMatches_clear (cutoff : Nat) (j : Job) :
    cleanupMatches cutoff
      (if cleanupMatches cutoff j then { j with stdout_log := none, stderr_log := none } else j)
      = cleanupMatches cutoff j := by
  by_cases h : cleanupMatches cutoff j
  · rw [if_pos h]
    rw [show cleanupMatches cutoff { j with stdout_log := none, stderr_log := none }
        = cleanupMatches cutoff j from rfl]
  · rw [if_neg h]

/-- C9: counterexample to "running it twice in succession with the same
cutoff returns a count of zero additional rows affected on the second
run".  The `UPDATE`'s `WHERE` clause does not exclude already-cleared
rows, so a store with one old terminal logged job reports 1 affected row
on the first run and again 1 (not 0) on the second. -/
theorem c9_cleanup_counterexample :
    (cleanup_old_jobs [oldLoggedJob] 10).2 = 1 ∧
    (cleanup_old_jobs (cleanup_old_jobs [oldLoggedJob] 10).1 10).2 = 1 := by
  decide

/-- C9 (amended): cleanup clears only the stdout/stderr text of terminal
jobs completed before the cutoff, retaining every row (the lengths
agree) and never touching non-matching jobs — in particular never
non-terminal ones, regardless of age; a second run with the same cutoff
leaves the store unchanged and reports the same count as the first run
(the matched rows still satisfy the filter), not zero. -/
theorem c9_cleanup_amended (jobs : List Job) (cutoff : Nat) :
    (cleanup_old_jobs jobs cutoff).1.length = jobs.length ∧
    (∀ j ∈ jobs, terminalStatuses.contains j.status = false →
      j ∈ (cleanup_old_jobs jobs cutoff).1) ∧
    (∀ j ∈ jobs, cleanupMatches cutoff j = true →
      { j with stdout_log := none, stderr_log := none } ∈ (cleanup_old_jobs jobs cutoff).1) ∧
    cleanup_old_jobs (cleanup_old_jobs jobs cutoff).1 cutoff = cleanup_old_jobs jobs cutoff := by
  refine ⟨by simp [cleanup_old_jobs], ?_, ?_, ?_⟩
  · intro j hj hterm
    have hmatch : cleanupMatches cutoff j = false := by
      rw [cleanupMatches, hterm, Bool.and_false]
    refine List.mem_map.mpr ⟨j, hj, ?_⟩
    rw [hmatch]
    simp
  · intro j hj hmatch
    refine List.mem_map.mpr ⟨j, hj, ?_⟩
    rw [hmatch]
    simp
  · refine Prod.ext ?_ ?_
    · show List.map _ (List.map _ jobs) = List.map _ jobs
      rw [List.map_map]
      refine List.map_congr_left ?_
      intro j _
      show (fun k => if cleanupMatches cutoff k then
              { k with stdout_log := none, stderr_log := none } else k)
            ((fun k => if cleanupMatches cutoff k then
              { k with stdout_log := none, stderr_log := none } else k) j)
          = _
      by_cases h : cleanupMatches cutoff j
      · simp only [if_pos h]
        rw [if_pos (by rw [show cleanupMatches cutoff
            { j with stdout_log := none, stderr_log := none }
            = cleanupMatches cutoff j from rfl]; exact h)]
      · simp only [if_neg h, if_neg h]
    · show ((List.map _ jobs).filter (cleanupMatches cutoff)).length
          = (jobs.filter (cleanupMatches cutoff)).length
      rw [← List.countP_eq_length_filter, ← List.countP_eq_length_filter,
        List.countP_map]
      refine List.countP_congr ?_
      intro j _
      simp only [Function.comp_apply]
      rw [cleanupMatches_clear cutoff j]

/-- C9 (witness): the amended theorem at a one-row store with an old
terminal logged job: the second run changes nothing, and by direct
evaluation the first run reports one affected row. -/
theorem c9_cleanup_witness :
    cleanup_old_jobs (cleanup_old_jobs [oldLoggedJob] 10).1 10 =
      cleanup_old_jobs [oldLoggedJob] 10 ∧
    { oldLoggedJob with stdout_log := none, stderr_log := none } ∈
      (cleanup_old_jobs [oldLoggedJob] 10).1 :=
  ⟨(c9_cleanup_amended [oldLoggedJob] 10).2.2.2,
   (c9_cleanup_amended [oldLoggedJob] 10).2.2.1 oldLoggedJob
     (List.mem_singleton.mpr rfl) (by decide)⟩

end StormForge
